import Mathlib

/-!
Shallow embedding of the command-execution core of chromite's
`lib/cros_build_lib.py`: `RunCommand` (the new calling convention) and
`OldRunCommand` (the legacy convention with a bounded retry loop).

The child process and the operating system are abstracted as a `Behavior`
oracle: either the spawn primitive (`subprocess.Popen`) raises, or the
`communicate` call raises, or the child runs and maps the content piped to
its stdin to a stdout text, a stderr text and an exit code.  Everything the
parent observes is modelled explicitly: the list of diagnostic events
(informational messages, warnings, spawn and communicate calls, interrupt
handler installation and restoration), the returned value or propagated
exception, and the final state of the process-wide interrupt-handler slot.
-/

set_option autoImplicit false

namespace CrosBuildLib

/-- A command specification: either a single shell string or a sequence of
argument tokens (the `isinstance(cmd, basestring)` distinction in the
source). -/
inductive Cmd where
  | str : String → Cmd
  | args : List String → Cmd
  deriving Repr, DecidableEq

/-- Rendered single-line form of a command, as built for tracing and error
messages: a string form is used as-is, a token sequence is joined with
single spaces (`' '.join(cmd)`). -/
def cmdStr : Cmd → String
  | Cmd.str s => s
  | Cmd.args l => String.intercalate " " l

/-- Chroot-entry rewrite applied when `enter_chroot` is set: the string form
becomes `'./enter_chroot.sh -- ' + cmd`, the token-sequence form becomes
`['./enter_chroot.sh', '--'] + cmd`. -/
def chrootRewrite : Cmd → Cmd
  | Cmd.str s => Cmd.str ("./enter_chroot.sh -- " ++ s)
  | Cmd.args l => Cmd.args ("./enter_chroot.sh" :: "--" :: l)

/-- Python's `repr` of a list of strings, as produced by the `%r` format used
in `OldRunCommand`'s messages. -/
def pyReprList (l : List String) : String :=
  "[" ++ String.intercalate ", " (l.map (fun s => "\x27" ++ s ++ "\x27")) ++ "]"

/-- Python truthiness of an optional string: `None` and the empty string are
falsy, every other string is truthy. -/
def truthyStr : Option String → Bool
  | none => false
  | some s => !(s == "")

/-- Python's short-circuit `a or b or c or ''` chain over optional strings:
the first truthy value, or `''` when none is truthy.  This is the source's
`(error_message or error or output or '')`. -/
def orChain : List (Option String) → String
  | [] => ""
  | none :: xs => orChain xs
  | some s :: xs => if s == "" then orChain xs else s

/-- Content delivered to the child's stdin pipe.  The source sets
`stdin = subprocess.PIPE` under `if input:` (Python truthiness), and
`proc.communicate(input)` then writes `input` to the pipe; when stdin is not
a pipe the child inherits the parent's stdin, modelled as `none`. -/
def childStdin : Option String → Option String
  | none => none
  | some s => if s == "" then none else some s

/-- Result object of the new calling convention, mirroring
`CommandResult.__init__`: fields `cmd`, `error` (captured stderr), `output`
(captured stdout) and `returncode`, each `None` until assigned. -/
structure CommandResult where
  cmd : Option Cmd
  error : Option String
  output : Option String
  returncode : Option Int
  deriving Repr, DecidableEq

/-- Exceptions the embedded code can propagate: `RunCommandError` (raised by
`RunCommand` on a non-zero exit), `RunCommandException` (raised by
`OldRunCommand` on a non-zero exit), and any other exception such as the
`OSError` that `subprocess.Popen` or `communicate` may raise. -/
inductive PyExn where
  | runCommandError : String → PyExn
  | runCommandException : String → PyExn
  | otherError : String → PyExn
  deriving Repr, DecidableEq

/-- Observable parent-side events, in program order: informational messages
(`Info`), warnings (`Warning`), a `subprocess.Popen` call carrying the
command actually passed to it, a `communicate` call, and the installation
and restoration of the interrupt-signal handler. -/
inductive Event where
  | info : String → Event
  | warning : String → Event
  | spawn : Cmd → Event
  | communicate : Event
  | sigInstall : Event
  | sigRestore : Event
  deriving Repr, DecidableEq

/-- Oracle for one spawn of the child: `spawnFail` means `subprocess.Popen`
raises with the given message, `commFail` means the spawn succeeds but
`communicate` raises, and `runs f` means the child runs and `f` maps the
piped stdin content (`none` = inherited) to `(stdout, stderr, returncode)`. -/
inductive Behavior where
  | spawnFail : String → Behavior
  | commFail : String → Behavior
  | runs : (Option String → String × String × Int) → Behavior

/-- The distinguished handler value `signal.SIG_IGN`. -/
def SIG_IGN : Nat := 0

instance exceptDecEq (ε α : Type) [DecidableEq ε] [DecidableEq α] :
    DecidableEq (Except ε α) := fun a b =>
  match a, b with
  | Except.ok x, Except.ok y =>
      if h : x = y then Decidable.isTrue (by rw [h])
      else Decidable.isFalse (by intro he; cases he; exact h rfl)
  | Except.error x, Except.error y =>
      if h : x = y then Decidable.isTrue (by rw [h])
      else Decidable.isFalse (by intro he; cases he; exact h rfl)
  | Except.ok _, Except.error _ => Decidable.isFalse (by intro he; cases he)
  | Except.error _, Except.ok _ => Decidable.isFalse (by intro he; cases he)

/-- Everything a single `RunCommand` call makes observable: the diagnostic
event trace, the returned result or propagated exception, and the final
value of the process-wide SIGINT handler slot (given its pre-call value). -/
structure RunOutcome where
  trace : List Event
  result : Except PyExn CommandResult
  finalHandler : Nat
  deriving Repr, DecidableEq

/-- Shallow embedding of `RunCommand` (new calling convention).  The
parameters keep the source's names and order; `cwd`, `shell` and `env` are
forwarded unchanged to the spawn primitive in the source and are absorbed
into the `behav` oracle here.  `h0` is the pre-call value of the SIGINT
handler slot. -/
def RunCommand (cmd : Cmd) (print_cmd : Bool) (error_ok : Bool)
    (error_message : Option String) (exit_code : Bool)
    (redirect_stdout : Bool) (redirect_stderr : Bool)
    (input : Option String) (enter_chroot : Bool) (ignore_sigint : Bool)
    (behav : Behavior) (h0 : Nat) : RunOutcome :=
  let cmd1 := if enter_chroot then chrootRewrite cmd else cmd
  let cs := cmdStr cmd1
  let ev0 : List Event := if print_cmd then [Event.info ("RunCommand: " ++ cs)] else []
  match behav with
  | Behavior.spawnFail m =>
      -- Popen raises before the signal handler is touched; the catch-all
      -- `except Exception` either re-raises or warns and returns the
      -- partially filled result (only `cmd` was assigned).
      if error_ok then
        ⟨ev0 ++ [Event.spawn cmd1, Event.warning m],
         Except.ok ⟨some cmd1, none, none, none⟩, h0⟩
      else
        ⟨ev0 ++ [Event.spawn cmd1], Except.error (PyExn.otherError m), h0⟩
  | Behavior.commFail m =>
      -- Spawn succeeds; the handler is installed (if requested) after Popen
      -- returns; communicate raises; the inner `finally` restores the
      -- handler; the catch-all either re-raises or warns.
      let evI : List Event := if ignore_sigint then [Event.sigInstall] else []
      let evR : List Event := if ignore_sigint then [Event.sigRestore] else []
      let h1 := if ignore_sigint then SIG_IGN else h0
      let old_sigint := h0
      let hF := if ignore_sigint then old_sigint else h1
      if error_ok then
        ⟨ev0 ++ [Event.spawn cmd1] ++ evI ++ [Event.communicate] ++ evR ++ [Event.warning m],
         Except.ok ⟨some cmd1, none, none, none⟩, hF⟩
      else
        ⟨ev0 ++ [Event.spawn cmd1] ++ evI ++ [Event.communicate] ++ evR,
         Except.error (PyExn.otherError m), hF⟩
  | Behavior.runs f =>
      let evI : List Event := if ignore_sigint then [Event.sigInstall] else []
      let evR : List Event := if ignore_sigint then [Event.sigRestore] else []
      let h1 := if ignore_sigint then SIG_IGN else h0
      let old_sigint := h0
      let hF := if ignore_sigint then old_sigint else h1
      let oer := f (childStdin input)
      let out := if redirect_stdout then some oer.1 else none
      let err := if redirect_stderr then some oer.2.1 else none
      let ret : Option Int := if exit_code then some oer.2.2 else none
      let evs := ev0 ++ [Event.spawn cmd1] ++ evI ++ [Event.communicate] ++ evR
      if !error_ok && oer.2.2 != 0 then
        let msg := "Command \"" ++ cs ++ "\" failed.\n" ++ orChain [error_message, err, out]
        ⟨evs, Except.error (PyExn.runCommandError msg), hF⟩
      else
        ⟨evs, Except.ok ⟨some cmd1, err, out, ret⟩, hF⟩

/-- Return shape of the legacy convention: either the `output` variable
(captured stdout of the returning attempt, `None` when stdout was not
redirected) or the bare exit code of the final attempt. -/
inductive OldReturn where
  | out : Option String → OldReturn
  | code : Int → OldReturn
  deriving Repr, DecidableEq

/-- One pass of `OldRunCommand`'s `for retry_count in range(num_retries + 1)`
loop, embedded as structural recursion on the number of remaining
iterations.  `i` is the current `retry_count` value and the third argument
is the current value of the `output` variable (returned when the loop ends
without an early return).  Only `RunCommandException` is caught by the
loop's `except` clause; spawn and communicate failures propagate at once. -/
def oldLoop (cmd1 : List String) (print_cmd : Bool) (error_ok : Bool)
    (error_message : Option String) (exit_code : Bool)
    (redirect_stdout : Bool) (redirect_stderr : Bool) (input : Option String)
    (num_retries : Nat) (behav : Nat → Behavior) :
    Nat → Nat → Option String → List Event × Except PyExn OldReturn
  | 0, _, output => ([], Except.ok (OldReturn.out output))
  | Nat.succ remaining, i, _ =>
    match behav i with
    | Behavior.spawnFail m =>
        ([Event.spawn (Cmd.args cmd1)], Except.error (PyExn.otherError m))
    | Behavior.commFail m =>
        ([Event.spawn (Cmd.args cmd1), Event.communicate],
         Except.error (PyExn.otherError m))
    | Behavior.runs f =>
        let oer := f (childStdin input)
        let output := if redirect_stdout then some oer.1 else none
        let error := if redirect_stderr then some oer.2.1 else none
        let evA : List Event := [Event.spawn (Cmd.args cmd1), Event.communicate]
        if exit_code && i == num_retries then
          (evA, Except.ok (OldReturn.code oer.2.2))
        else if oer.2.2 == 0 then
          (evA, Except.ok (OldReturn.out output))
        else
          let msg := "Command \"" ++ pyReprList cmd1 ++ "\" failed.\n" ++
            orChain [error_message, error, output]
          if !error_ok && i == num_retries then
            (evA, Except.error (PyExn.runCommandException msg))
          else
            let evW : List Event := [Event.warning msg] ++
              (if print_cmd then
                [Event.info ("PROGRAM -> RunCommand: retrying " ++ pyReprList cmd1)]
               else [])
            let rest := oldLoop cmd1 print_cmd error_ok error_message exit_code
              redirect_stdout redirect_stderr input num_retries behav remaining (i + 1) output
            (evA ++ evW ++ rest.1, rest.2)

/-- Shallow embedding of `OldRunCommand` (legacy calling convention).  The
command is a token sequence (the only form compatible with the source's
`enter_chroot` list concatenation); `behav i` gives the oracle for attempt
number `i`.  The caller-name and working-directory fragments of the `Info`
trace text are environment introspection and are elided. -/
def OldRunCommand (cmd : List String) (print_cmd : Bool) (error_ok : Bool)
    (error_message : Option String) (exit_code : Bool)
    (redirect_stdout : Bool) (redirect_stderr : Bool) (input : Option String)
    (enter_chroot : Bool) (num_retries : Nat) (behav : Nat → Behavior) :
    List Event × Except PyExn OldReturn :=
  let cmd1 := if enter_chroot then "./enter_chroot.sh" :: "--" :: cmd else cmd
  let ev0 : List Event :=
    if print_cmd then [Event.info ("PROGRAM -> RunCommand: " ++ pyReprList cmd1)] else []
  let r := oldLoop cmd1 print_cmd error_ok error_message exit_code redirect_stdout
    redirect_stderr input num_retries behav (num_retries + 1) 0 (some "")
  (ev0 ++ r.1, r.2)

/-- Number of events in a trace satisfying a predicate. -/
def countEv (p : Event → Bool) (evs : List Event) : Nat := (evs.filter p).length

/-- Predicate for warning events. -/
def isWarning : Event → Bool
  | Event.warning _ => true
  | _ => false

/-- Predicate for spawn events. -/
def isSpawn : Event → Bool
  | Event.spawn _ => true
  | _ => false

/-- Predicate for handler-installation events. -/
def isSigInstall : Event → Bool
  | Event.sigInstall => true
  | _ => false

/-- Predicate for handler-restoration events. -/
def isSigRestore : Event → Bool
  | Event.sigRestore => true
  | _ => false

/-- Number of warnings emitted in a trace. -/
def warnCount (evs : List Event) : Nat := countEv isWarning evs

/-- Number of spawn attempts in a trace. -/
def spawnCount (evs : List Event) : Nat := countEv isSpawn evs

/-- Number of interrupt-handler installations in a trace. -/
def sigInstallCount (evs : List Event) : Nat := countEv isSigInstall evs

/-- Number of interrupt-handler restorations in a trace. -/
def sigRestoreCount (evs : List Event) : Nat := countEv isSigRestore evs

/-- The commands passed to the spawn primitive, in order. -/
def spawnedCmds (evs : List Event) : List Cmd :=
  evs.filterMap (fun ev => match ev with | Event.spawn c => some c | _ => none)

/-- Modelled from the spec's words for the failure-text preference order, as
amended: the caller-supplied message when given and non-empty, else the
captured stderr when non-empty, else the captured stdout when non-empty,
else the empty tail (the generic phrase alone). -/
def specErrorText (error_message stderrCap stdoutCap : Option String) : String :=
  if truthyStr error_message then error_message.getD ""
  else if truthyStr stderrCap then stderrCap.getD ""
  else if truthyStr stdoutCap then stdoutCap.getD ""
  else ""

/-- The echoed-command property: when `e` is a returned result, its `cmd`
field equals `c`; a propagated exception carries no result to inspect. -/
def echoesCmd (e : Except PyExn CommandResult) (c : Option Cmd) : Prop :=
  match e with
  | Except.ok res => res.cmd = c
  | Except.error _ => True

theorem countEv_append (p : Event → Bool) (a b : List Event) :
    countEv p (a ++ b) = countEv p a + countEv p b := by
  simp [countEv, List.filter_append]

@[simp] theorem isWarning_info (m : String) : isWarning (Event.info m) = false := rfl

@[simp] theorem isWarning_warning (m : String) : isWarning (Event.warning m) = true := rfl

@[simp] theorem isWarning_spawn (c : Cmd) : isWarning (Event.spawn c) = false := rfl

@[simp] theorem isWarning_communicate : isWarning Event.communicate = false := rfl

@[simp] theorem isWarning_sigInstall : isWarning Event.sigInstall = false := rfl

@[simp] theorem isWarning_sigRestore : isWarning Event.sigRestore = false := rfl

@[simp] theorem isSpawn_info (m : String) : isSpawn (Event.info m) = false := rfl

@[simp] theorem isSpawn_warning (m : String) : isSpawn (Event.warning m) = false := rfl

@[simp] theorem isSpawn_spawn (c : Cmd) : isSpawn (Event.spawn c) = true := rfl

@[simp] theorem isSpawn_communicate : isSpawn Event.communicate = false := rfl

@[simp] theorem isSpawn_sigInstall : isSpawn Event.sigInstall = false := rfl

@[simp] theorem isSpawn_sigRestore : isSpawn Event.sigRestore = false := rfl

@[simp] theorem isSigInstall_info (m : String) : isSigInstall (Event.info m) = false := rfl

@[simp] theorem isSigInstall_warning (m : String) : isSigInstall (Event.warning m) = false := rfl

@[simp] theorem isSigInstall_spawn (c : Cmd) : isSigInstall (Event.spawn c) = false := rfl

@[simp] theorem isSigInstall_communicate : isSigInstall Event.communicate = false := rfl

@[simp] theorem isSigInstall_sigInstall : isSigInstall Event.sigInstall = true := rfl

@[simp] theorem isSigInstall_sigRestore : isSigInstall Event.sigRestore = false := rfl

@[simp] theorem isSigRestore_info (m : String) : isSigRestore (Event.info m) = false := rfl

@[simp] theorem isSigRestore_warning (m : String) : isSigRestore (Event.warning m) = false := rfl

@[simp] theorem isSigRestore_spawn (c : Cmd) : isSigRestore (Event.spawn c) = false := rfl

@[simp] theorem isSigRestore_communicate : isSigRestore Event.communicate = false := rfl

@[simp] theorem isSigRestore_sigInstall : isSigRestore Event.sigInstall = false := rfl

@[simp] theorem isSigRestore_sigRestore : isSigRestore Event.sigRestore = true := rfl

@[simp] theorem spawnedCmds_nil : spawnedCmds [] = [] := rfl

@[simp] theorem spawnedCmds_info (m : String) (l : List Event) :
    spawnedCmds (Event.info m :: l) = spawnedCmds l := rfl

@[simp] theorem spawnedCmds_warning (m : String) (l : List Event) :
    spawnedCmds (Event.warning m :: l) = spawnedCmds l := rfl

@[simp] theorem spawnedCmds_spawn (c : Cmd) (l : List Event) :
    spawnedCmds (Event.spawn c :: l) = c :: spawnedCmds l := rfl

@[simp] theorem spawnedCmds_communicate (l : List Event) :
    spawnedCmds (Event.communicate :: l) = spawnedCmds l := rfl

@[simp] theorem spawnedCmds_sigInstall (l : List Event) :
    spawnedCmds (Event.sigInstall :: l) = spawnedCmds l := rfl

@[simp] theorem spawnedCmds_sigRestore (l : List Event) :
    spawnedCmds (Event.sigRestore :: l) = spawnedCmds l := rfl

@[simp] theorem spawnedCmds_append (a b : List Event) :
    spawnedCmds (a ++ b) = spawnedCmds a ++ spawnedCmds b := by
  simp [spawnedCmds, List.filterMap_append]

theorem orChain_eq_specErrorText (a b c : Option String) :
    orChain [a, b, c] = specErrorText a b c := by
  cases a <;> cases b <;> cases c <;>
    simp [orChain, specErrorText, truthyStr]

theorem oldLoop_all_attempts_fail (cmd1 : List String) (pc : Bool) (em : Option String)
    (ec rso rse : Bool) (inp : Option String) (N : Nat) (behav : Nat → Behavior)
    (f : Option String → String × String × Int)
    (hf : (((f (childStdin inp)).2.2) == 0) = false)
    (hb : ∀ j, behav j = Behavior.runs f) :
    ∀ (d i : Nat) (outp : Option String), i + d = N →
      (oldLoop cmd1 pc false em ec rso rse inp N behav (N + 1 - i) i outp).2 =
        (if ec then Except.ok (OldReturn.code (f (childStdin inp)).2.2)
         else Except.error (PyExn.runCommandException
           ("Command \"" ++ pyReprList cmd1 ++ "\" failed.\n" ++
             orChain [em, if rse then some (f (childStdin inp)).2.1 else none,
               if rso then some (f (childStdin inp)).1 else none]))) ∧
      warnCount (oldLoop cmd1 pc false em ec rso rse inp N behav (N + 1 - i) i outp).1 = d ∧
      spawnCount (oldLoop cmd1 pc false em ec rso rse inp N behav (N + 1 - i) i outp).1 =
        d + 1 := by
  intro d
  induction d with
  | zero =>
      intro i outp hiN
      simp only [Nat.add_zero] at hiN
      subst hiN
      have h1 : i + 1 - i = Nat.succ 0 := by omega
      rw [h1, oldLoop, hb i]
      cases ec <;>
        simp [hf, warnCount, spawnCount, countEv]
  | succ d ih =>
      intro i outp hiN
      have hlt : i < N := by omega
      have hbeq : (i == N) = false := by
        simp only [beq_eq_false_iff_ne]
        omega
      have h1 : N + 1 - i = Nat.succ (N - i) := by omega
      have h2 : N + 1 - (i + 1) = N - i := by omega
      rw [h1, oldLoop, hb i]
      obtain ⟨ih1, ih2, ih3⟩ := ih (i + 1)
        (if rso then some (f (childStdin inp)).1 else none) (by omega)
      rw [h2] at ih1 ih2 ih3
      simp only [warnCount, spawnCount, countEv] at ih2 ih3
      cases pc <;>
        simp [hf, hbeq, warnCount, spawnCount, countEv, List.filter_append, ih1, ih2, ih3]

theorem oldLoop_fails_then_spawn_error (cmd1 : List String) (pc eo : Bool)
    (em : Option String) (ec rso rse : Bool) (inp : Option String) (N K : Nat)
    (behav : Nat → Behavior) (m : String) (ffail : Option String → String × String × Int)
    (hf : (((ffail (childStdin inp)).2.2) == 0) = false)
    (hb : ∀ j, j < K → behav j = Behavior.runs ffail)
    (hbK : behav K = Behavior.spawnFail m) (hKN : K ≤ N) :
    ∀ (d i : Nat) (outp : Option String), i + d = K →
      (oldLoop cmd1 pc eo em ec rso rse inp N behav (N + 1 - i) i outp).2 =
        Except.error (PyExn.otherError m) ∧
      warnCount (oldLoop cmd1 pc eo em ec rso rse inp N behav (N + 1 - i) i outp).1 = d ∧
      spawnCount (oldLoop cmd1 pc eo em ec rso rse inp N behav (N + 1 - i) i outp).1 =
        d + 1 := by
  intro d
  induction d with
  | zero =>
      intro i outp hiK
      simp only [Nat.add_zero] at hiK
      subst hiK
      have h1 : N + 1 - i = Nat.succ (N - i) := by omega
      rw [h1, oldLoop, hbK]
      simp [warnCount, spawnCount, countEv]
  | succ d ih =>
      intro i outp hiK
      have hlt : i < K := by omega
      have hbeq : (i == N) = false := by
        simp only [beq_eq_false_iff_ne]
        omega
      have h1 : N + 1 - i = Nat.succ (N - i) := by omega
      have h2 : N + 1 - (i + 1) = N - i := by omega
      rw [h1, oldLoop, hb i hlt]
      obtain ⟨ih1, ih2, ih3⟩ := ih (i + 1)
        (if rso then some (ffail (childStdin inp)).1 else none) (by omega)
      rw [h2] at ih1 ih2 ih3
      simp only [warnCount, spawnCount, countEv] at ih2 ih3
      cases pc <;>
        simp [hf, hbeq, warnCount, spawnCount, countEv, List.filter_append, ih1, ih2, ih3]

theorem oldLoop_fails_then_success (cmd1 : List String) (pc eo : Bool)
    (em : Option String) (ec rso rse : Bool) (inp : Option String) (N K : Nat)
    (behav : Nat → Behavior) (ffail fsucc : Option String → String × String × Int)
    (hf : (((ffail (childStdin inp)).2.2) == 0) = false)
    (hz : (((fsucc (childStdin inp)).2.2) == 0) = true)
    (hb : ∀ j, j < K → behav j = Behavior.runs ffail)
    (hbK : behav K = Behavior.runs fsucc) (hKN : K ≤ N) :
    ∀ (d i : Nat) (outp : Option String), i + d = K →
      (oldLoop cmd1 pc eo em ec rso rse inp N behav (N + 1 - i) i outp).2 =
        Except.ok (if ec && (K == N) then OldReturn.code (fsucc (childStdin inp)).2.2
          else OldReturn.out (if rso then some (fsucc (childStdin inp)).1 else none)) ∧
      warnCount (oldLoop cmd1 pc eo em ec rso rse inp N behav (N + 1 - i) i outp).1 = d ∧
      spawnCount (oldLoop cmd1 pc eo em ec rso rse inp N behav (N + 1 - i) i outp).1 =
        d + 1 := by
  intro d
  induction d with
  | zero =>
      intro i outp hiK
      simp only [Nat.add_zero] at hiK
      subst hiK
      have h1 : N + 1 - i = Nat.succ (N - i) := by omega
      rw [h1, oldLoop, hbK]
      by_cases hec : (ec && (i == N)) = true
      · simp [hec, warnCount, spawnCount, countEv]
      · simp only [Bool.not_eq_true] at hec
        simp [hec, hz, warnCount, spawnCount, countEv]
  | succ d ih =>
      intro i outp hiK
      have hlt : i < K := by omega
      have hbeq : (i == N) = false := by
        simp only [beq_eq_false_iff_ne]
        omega
      have h1 : N + 1 - i = Nat.succ (N - i) := by omega
      have h2 : N + 1 - (i + 1) = N - i := by omega
      rw [h1, oldLoop, hb i hlt]
      obtain ⟨ih1, ih2, ih3⟩ := ih (i + 1)
        (if rso then some (ffail (childStdin inp)).1 else none) (by omega)
      rw [h2] at ih1 ih2 ih3
      simp only [warnCount, spawnCount, countEv] at ih2 ih3
      cases pc <;>
        simp [hf, hbeq, warnCount, spawnCount, countEv, List.filter_append, ih1, ih2, ih3]

/-- C1 counterexample: a `RunCommand` call with `error_ok = true` whose child
exits with code 1 returns a `CommandResult` normally but emits zero
warnings, not exactly one: the warning branch is unreachable because the
failure is never raised in the first place. -/
theorem C1_cex_new_protocol_emits_no_warning :
    (RunCommand (Cmd.args ["false"]) false true none false false false none false false
        (Behavior.runs (fun _ => ("", "", 1))) 0).result =
      Except.ok ⟨some (Cmd.args ["false"]), none, none, none⟩ ∧
    warnCount (RunCommand (Cmd.args ["false"]) false true none false false false none false false
        (Behavior.runs (fun _ => ("", "", 1))) 0).trace ≠ 1 := by
  decide

/-- C2 counterexample: under the legacy retry protocol with `num_retries = 1`
and `error_ok = true`, a spawn error on the first (non-final) attempt is not
downgraded to a warning and the loop does not proceed: the exception
propagates immediately with zero warnings, because the loop catches only
`RunCommandException`. -/
theorem C2_cex_spawn_error_propagates_from_first_attempt :
    (OldRunCommand ["x"] false true none false false false none false 1
        (fun _ => Behavior.spawnFail "boom")).2 =
      Except.error (PyExn.otherError "boom") ∧
    warnCount (OldRunCommand ["x"] false true none false false false none false 1
        (fun _ => Behavior.spawnFail "boom")).1 = 0 := by
  decide

/-- C5: evaluation of the legacy exit-code mode at the failing input.  With
`exit_code = true`, `num_retries = 1` and a command that succeeds on the
first attempt printing `hi`, the call returns the captured output payload,
not the exit code: the exit-code return only triggers when
`retry_count == num_retries`, contradicting the docstring's promise that the
return code is returned whenever `exit_code` is true. -/
theorem C5_exit_code_mode_returns_output_on_early_success :
    (OldRunCommand ["x"] false false none true true false none false 1
        (fun _ => Behavior.runs (fun _ => ("hi", "", 0)))).2 =
      Except.ok (OldReturn.out (some "hi")) := by
  decide

/-- C7 counterexample: with `num_retries = 0`, `error_ok = false`,
`exit_code = true` and a child that always exits with code 1, the call does
not raise: the final attempt returns the non-zero exit code as the ordinary
return value before the failure check runs. -/
theorem C7_cex_exit_code_mode_swallows_final_failure :
    (OldRunCommand ["x"] false false none true false false none false 0
        (fun _ => Behavior.runs (fun _ => ("", "", 1)))).2 =
      Except.ok (OldReturn.code 1) ∧
    warnCount (OldRunCommand ["x"] false false none true false false none false 0
        (fun _ => Behavior.runs (fun _ => ("", "", 1)))).1 = 0 := by
  decide

/-- C8: evaluation of the interrupt-guard installation order at the failing
input.  With `ignore_sigint = true` and a successful spawn, the trace shows
the `Popen` call strictly before the handler installation: the no-op SIGINT
handler is installed only after the child was spawned, contradicting the
claim (and the function's own docstring) that SIGINT is ignored before the
child is called. -/
theorem C8_handler_installed_after_spawn :
    (RunCommand (Cmd.args ["true"]) false false none false false false none false true
        (Behavior.runs (fun _ => ("", "", 0))) 7).trace =
      [Event.spawn (Cmd.args ["true"]), Event.sigInstall, Event.communicate,
        Event.sigRestore] := by
  decide

/-- C9 counterexample: a caller-supplied but empty `error_message` is not
used in the failure text; Python truthiness skips it and the captured stderr
is appended instead.  The resulting message differs from the one the claim
predicts for a given `error_message`. -/
theorem C9_cex_empty_error_message_is_skipped :
    (RunCommand (Cmd.args ["x"]) false false (some "") false false true none false false
        (Behavior.runs (fun _ => ("", "boom", 1))) 0).result =
      Except.error (PyExn.runCommandError "Command \"x\" failed.\nboom") ∧
    "Command \"x\" failed.\nboom" ≠ "Command \"x\" failed.\n" := by
  decide

/-- C10 counterexample: an empty-string `input` is present but is not piped
to the child's stdin.  A child that reports whether it received piped stdin
observes the inherited-stdin case, so the captured stdout is not the piped
empty string. -/
theorem C10_cex_empty_input_is_not_piped :
    (RunCommand (Cmd.args ["cat"]) false false none false true false (some "") false false
        (Behavior.runs
          (fun st => ((match st with | some s => s | none => "INHERITED"), "", 0))) 0).result =
      Except.ok ⟨some (Cmd.args ["cat"]), none, some "INHERITED", none⟩ ∧
    (some "INHERITED" : Option String) ≠ some "" := by
  decide

/-- C3: signal-guard symmetry.  For every `RunCommand` call with
`ignore_sigint = true`, on every exit path of the attempt (normal return,
tolerated failure, raised failure, spawn failure or communicate failure) the
final value of the interrupt-handler slot equals its pre-call value, every
installation is matched by exactly one restoration, and the guard is
installed at most once.  (On the spawn-failure path the guard was never
installed, so there is nothing to restore and the handler is untouched.) -/
theorem C3_signal_guard_symmetric (cmd : Cmd) (pc eo : Bool) (em : Option String)
    (ec rso rse : Bool) (inp : Option String) (ech : Bool) (behav : Behavior) (h0 : Nat) :
    (RunCommand cmd pc eo em ec rso rse inp ech true behav h0).finalHandler = h0 ∧
    sigRestoreCount (RunCommand cmd pc eo em ec rso rse inp ech true behav h0).trace =
      sigInstallCount (RunCommand cmd pc eo em ec rso rse inp ech true behav h0).trace ∧
    sigInstallCount (RunCommand cmd pc eo em ec rso rse inp ech true behav h0).trace ≤ 1 := by
  cases behav <;> cases pc <;> cases eo <;>
    simp [RunCommand, sigInstallCount, sigRestoreCount, countEv, List.filter_append, apply_ite]

theorem echo_of_ok (e : Except PyExn CommandResult) (c : Option Cmd)
    (h : ∀ r, e = Except.ok r → r.cmd = c) : echoesCmd e c := by
  cases e with
  | ok r => exact h r rfl
  | error m => trivial

/-- C4: chroot-entry rewriting.  For every `RunCommand` call with
`enter_chroot = true`, the command handed to the spawn primitive is exactly
the chroot rewrite of the original; the rewrite prepends the chroot-entry
program and the `--` separator while preserving the string/token-sequence
form; and whenever a result is returned, the command echoed in it is the
as-rewritten form. -/
theorem C4_chroot_rewrite_spawned_and_echoed (cmd : Cmd) (pc eo : Bool)
    (em : Option String) (ec rso rse : Bool) (inp : Option String) (isig : Bool)
    (behav : Behavior) (h0 : Nat) :
    spawnedCmds (RunCommand cmd pc eo em ec rso rse inp true isig behav h0).trace =
      [chrootRewrite cmd] ∧
    (match cmd with
      | Cmd.str s => chrootRewrite cmd = Cmd.str ("./enter_chroot.sh -- " ++ s)
      | Cmd.args l => chrootRewrite cmd = Cmd.args ("./enter_chroot.sh" :: "--" :: l)) ∧
    echoesCmd (RunCommand cmd pc eo em ec rso rse inp true isig behav h0).result
      (some (chrootRewrite cmd)) := by
  refine ⟨?_, ?_, ?_⟩
  · cases behav <;> cases pc <;> cases eo <;> cases isig <;>
      simp [RunCommand, List.filter_append, apply_ite]
  · cases cmd <;> simp [chrootRewrite]
  · apply echo_of_ok
    intro r hr
    cases behav with
    | spawnFail m =>
        cases eo <;> simp [RunCommand] at hr
        rw [← hr]
    | commFail m =>
        cases eo <;> simp [RunCommand] at hr
        rw [← hr]
    | runs f =>
        cases eo with
        | false =>
            by_cases hc : ((f (childStdin inp)).2.2 != 0) = true
            · simp [RunCommand, hc] at hr
            · simp [RunCommand, hc] at hr
              rw [← hr]
        | true =>
            simp [RunCommand] at hr
            rw [← hr]

/-- C1 as amended: for a non-zero child exit code with `error_ok = true`, no
failure is raised and a result is still produced in both protocols; the
legacy protocol (outside exit-code mode) emits exactly one warning for the
attempt, while the new protocol emits no warning at all, because the failure
branch is never entered. -/
theorem C1_amended_error_ok_nonzero_exit (cmd : Cmd) (oc : List String) (pc : Bool)
    (em : Option String) (ec rso rse : Bool) (inp : Option String) (ech isig : Bool)
    (f : Option String → String × String × Int) (h0 : Nat)
    (hf : (((f (childStdin inp)).2.2) == 0) = false) :
    (RunCommand cmd pc true em ec rso rse inp ech isig (Behavior.runs f) h0).result =
      Except.ok ⟨some (if ech then chrootRewrite cmd else cmd),
        if rse then some (f (childStdin inp)).2.1 else none,
        if rso then some (f (childStdin inp)).1 else none,
        if ec then some (f (childStdin inp)).2.2 else none⟩ ∧
    warnCount (RunCommand cmd pc true em ec rso rse inp ech isig
      (Behavior.runs f) h0).trace = 0 ∧
    (OldRunCommand oc pc true em false rso rse inp false 0 (fun _ => Behavior.runs f)).2 =
      Except.ok (OldReturn.out (if rso then some (f (childStdin inp)).1 else none)) ∧
    warnCount (OldRunCommand oc pc true em false rso rse inp false 0
      (fun _ => Behavior.runs f)).1 = 1 := by
  refine ⟨?_, ?_, ?_, ?_⟩
  · simp [RunCommand]
  · cases pc <;> cases isig <;>
      simp [RunCommand, warnCount, countEv, List.filter_append, apply_ite]
  · simp [OldRunCommand, oldLoop, hf]
  · cases pc <;>
      simp [OldRunCommand, oldLoop, hf, warnCount, countEv, List.filter_append]

theorem C1_witness :
    (((2 : Int)) == 0) = false ∧
    ((RunCommand (Cmd.args ["x"]) false true none false false false none false false
        (Behavior.runs (fun _ => ("", "", (2 : Int)))) 0).result =
      Except.ok ⟨some (Cmd.args ["x"]), none, none, none⟩ ∧
    warnCount (RunCommand (Cmd.args ["x"]) false true none false false false none false false
        (Behavior.runs (fun _ => ("", "", (2 : Int)))) 0).trace = 0 ∧
    (OldRunCommand ["x"] false true none false false false none false 0
        (fun _ => Behavior.runs (fun _ => ("", "", (2 : Int))))).2 =
      Except.ok (OldReturn.out none) ∧
    warnCount (OldRunCommand ["x"] false true none false false false none false 0
        (fun _ => Behavior.runs (fun _ => ("", "", (2 : Int))))).1 = 1) :=
  ⟨by decide,
   C1_amended_error_ok_nonzero_exit (Cmd.args ["x"]) ["x"] false none false false false
     none false false (fun _ => ("", "", (2 : Int))) 0 (by decide)⟩

/-- C2 as amended: under the legacy retry protocol, a non-zero-exit failure
on any attempt before the last is downgraded to a warning unconditionally
(independent of `error_ok`) and the loop proceeds; but a spawn error is not
caught by the loop at all and propagates immediately from any attempt —
final or not — regardless of `error_ok`, with no warning for it. -/
theorem C2_amended_spawn_error_escapes_retry (oc : List String) (pc eo : Bool)
    (em : Option String) (ec rso rse : Bool) (inp : Option String) (N K : Nat)
    (m : String) (behav : Nat → Behavior) (ffail : Option String → String × String × Int)
    (hf : (((ffail (childStdin inp)).2.2) == 0) = false)
    (hb : ∀ j, j < K → behav j = Behavior.runs ffail)
    (hbK : behav K = Behavior.spawnFail m) (hKN : K ≤ N) :
    (OldRunCommand oc pc eo em ec rso rse inp false N behav).2 =
      Except.error (PyExn.otherError m) ∧
    warnCount (OldRunCommand oc pc eo em ec rso rse inp false N behav).1 = K ∧
    spawnCount (OldRunCommand oc pc eo em ec rso rse inp false N behav).1 = K + 1 := by
  obtain ⟨l1, l2, l3⟩ := oldLoop_fails_then_spawn_error oc pc eo em ec rso rse inp N K
    behav m ffail hf hb hbK hKN K 0 (some "") (by omega)
  have hN : N + 1 - 0 = N + 1 := by omega
  rw [hN] at l1 l2 l3
  simp only [warnCount, spawnCount, countEv] at l2 l3
  cases pc <;>
    simp [OldRunCommand, warnCount, spawnCount, countEv, List.filter_append, l1, l2, l3]

theorem C2_witness :
    (((1 : Int)) == 0) = false ∧ 1 ≤ 2 ∧
    ((OldRunCommand ["x"] false true none false false false none false 2
        (fun j => if j < 1 then Behavior.runs (fun _ => ("", "", (1 : Int)))
          else Behavior.spawnFail "boom")).2 =
      Except.error (PyExn.otherError "boom") ∧
    warnCount (OldRunCommand ["x"] false true none false false false none false 2
        (fun j => if j < 1 then Behavior.runs (fun _ => ("", "", (1 : Int)))
          else Behavior.spawnFail "boom")).1 = 1 ∧
    spawnCount (OldRunCommand ["x"] false true none false false false none false 2
        (fun j => if j < 1 then Behavior.runs (fun _ => ("", "", (1 : Int)))
          else Behavior.spawnFail "boom")).1 = 2) :=
  ⟨by decide, by decide,
   C2_amended_spawn_error_escapes_retry ["x"] false true none false false false none 2 1
     "boom"
     (fun j => if j < 1 then Behavior.runs (fun _ => ("", "", (1 : Int)))
       else Behavior.spawnFail "boom")
     (fun _ => ("", "", (1 : Int))) (by decide)
     (fun j hj => if_pos hj) (if_neg (by decide)) (by decide)⟩

/-- C6: legacy retry loop stops at the first zero-exit attempt.  With
`retry_count = N`, a command that exits non-zero on every attempt before
attempt index `K` and exits zero at attempt `K ≤ N`, the call performs
exactly `K + 1` attempts, emits exactly `K` warnings, raises nothing, and
returns that attempt's result (the captured output, or the zero exit code
when exit-code mode triggers on the final attempt).  The claim's scenario is
the instance `K = N`. -/
theorem C6_legacy_retry_stops_at_first_success (oc : List String) (pc eo : Bool)
    (em : Option String) (ec rso rse : Bool) (inp : Option String) (N K : Nat)
    (behav : Nat → Behavior) (ffail fsucc : Option String → String × String × Int)
    (hf : (((ffail (childStdin inp)).2.2) == 0) = false)
    (hz : (((fsucc (childStdin inp)).2.2) == 0) = true)
    (hb : ∀ j, j < K → behav j = Behavior.runs ffail)
    (hbK : behav K = Behavior.runs fsucc) (hKN : K ≤ N) :
    (OldRunCommand oc pc eo em ec rso rse inp false N behav).2 =
      Except.ok (if ec && (K == N) then OldReturn.code (fsucc (childStdin inp)).2.2
        else OldReturn.out (if rso then some (fsucc (childStdin inp)).1 else none)) ∧
    warnCount (OldRunCommand oc pc eo em ec rso rse inp false N behav).1 = K ∧
    spawnCount (OldRunCommand oc pc eo em ec rso rse inp false N behav).1 = K + 1 := by
  obtain ⟨l1, l2, l3⟩ := oldLoop_fails_then_success oc pc eo em ec rso rse inp N K
    behav ffail fsucc hf hz hb hbK hKN K 0 (some "") (by omega)
  have hN : N + 1 - 0 = N + 1 := by omega
  rw [hN] at l1 l2 l3
  simp only [warnCount, spawnCount, countEv] at l2 l3
  cases pc <;>
    simp [OldRunCommand, warnCount, spawnCount, countEv, List.filter_append, l1, l2, l3]

theorem C6_witness :
    (((1 : Int)) == 0) = false ∧ (((0 : Int)) == 0) = true ∧ 2 ≤ 2 ∧
    ((OldRunCommand ["x"] false false none false true false none false 2
        (fun j => if j < 2 then Behavior.runs (fun _ => ("", "e", (1 : Int)))
          else Behavior.runs (fun _ => ("ok", "", (0 : Int))))).2 =
      Except.ok (OldReturn.out (some "ok")) ∧
    warnCount (OldRunCommand ["x"] false false none false true false none false 2
        (fun j => if j < 2 then Behavior.runs (fun _ => ("", "e", (1 : Int)))
          else Behavior.runs (fun _ => ("ok", "", (0 : Int))))).1 = 2 ∧
    spawnCount (OldRunCommand ["x"] false false none false true false none false 2
        (fun j => if j < 2 then Behavior.runs (fun _ => ("", "e", (1 : Int)))
          else Behavior.runs (fun _ => ("ok", "", (0 : Int))))).1 = 3) :=
  ⟨by decide, by decide, by decide,
   C6_legacy_retry_stops_at_first_success ["x"] false false none false true false none 2 2
     (fun j => if j < 2 then Behavior.runs (fun _ => ("", "e", (1 : Int)))
       else Behavior.runs (fun _ => ("ok", "", (0 : Int))))
     (fun _ => ("", "e", (1 : Int))) (fun _ => ("ok", "", (0 : Int)))
     (by decide) (by decide) (fun j hj => if_pos hj) (if_neg (by decide)) (by decide)⟩

/-- C7 as amended: with `retry_count = N`, `error_ok = false` and a child
that exits non-zero on every attempt, the call performs exactly `N + 1`
attempts and emits `N` warnings; outside exit-code mode it then raises
exactly one failure, while in exit-code mode the final attempt instead
returns the non-zero exit code without raising. -/
theorem C7_amended_retry_exhaustion (oc : List String) (pc : Bool) (em : Option String)
    (ec rso rse : Bool) (inp : Option String) (N : Nat) (behav : Nat → Behavior)
    (f : Option String → String × String × Int)
    (hf : (((f (childStdin inp)).2.2) == 0) = false)
    (hb : ∀ j, behav j = Behavior.runs f) :
    (OldRunCommand oc pc false em ec rso rse inp false N behav).2 =
      (if ec then Except.ok (OldReturn.code (f (childStdin inp)).2.2)
       else Except.error (PyExn.runCommandException
         ("Command \"" ++ pyReprList oc ++ "\" failed.\n" ++
           specErrorText em (if rse then some (f (childStdin inp)).2.1 else none)
             (if rso then some (f (childStdin inp)).1 else none)))) ∧
    warnCount (OldRunCommand oc pc false em ec rso rse inp false N behav).1 = N ∧
    spawnCount (OldRunCommand oc pc false em ec rso rse inp false N behav).1 = N + 1 := by
  obtain ⟨l1, l2, l3⟩ := oldLoop_all_attempts_fail oc pc em ec rso rse inp N behav f hf hb
    N 0 (some "") (by omega)
  have hN : N + 1 - 0 = N + 1 := by omega
  rw [hN] at l1 l2 l3
  rw [orChain_eq_specErrorText] at l1
  simp only [warnCount, spawnCount, countEv] at l2 l3
  cases pc <;>
    simp [OldRunCommand, warnCount, spawnCount, countEv, List.filter_append, l1, l2, l3]

theorem C7_witness :
    (((3 : Int)) == 0) = false ∧
    ((OldRunCommand ["x"] false false none false false false none false 1
        (fun _ => Behavior.runs (fun _ => ("", "", (3 : Int))))).2 =
      Except.error (PyExn.runCommandException "Command \"[\x27x\x27]\" failed.\n") ∧
    warnCount (OldRunCommand ["x"] false false none false false false none false 1
        (fun _ => Behavior.runs (fun _ => ("", "", (3 : Int))))).1 = 1 ∧
    spawnCount (OldRunCommand ["x"] false false none false false false none false 1
        (fun _ => Behavior.runs (fun _ => ("", "", (3 : Int))))).1 = 2) :=
  ⟨by decide,
   C7_amended_retry_exhaustion ["x"] false none false false false none 1
     (fun _ => Behavior.runs (fun _ => ("", "", (3 : Int))))
     (fun _ => ("", "", (3 : Int))) (by decide) (fun _ => rfl)⟩

/-- C9 as amended: every raised non-zero-exit failure carries a message that
references the rendered command line and appends, in strict preference
order, the caller-supplied `error_message` if given and non-empty, else the
captured stderr if non-empty, else the captured stdout if non-empty, else
nothing beyond the generic command-failed phrase.  This holds for both the
new protocol's `RunCommandError` and the legacy protocol's
`RunCommandException` (whose command rendering is the list `repr`). -/
theorem C9_amended_failure_message_preference (cmd : Cmd) (pc : Bool) (em : Option String)
    (ec rso rse : Bool) (inp : Option String) (ech isig : Bool)
    (f : Option String → String × String × Int) (h0 : Nat) (oc : List String) (N : Nat)
    (behav : Nat → Behavior)
    (hf : (((f (childStdin inp)).2.2) == 0) = false)
    (hb : ∀ j, behav j = Behavior.runs f) :
    (RunCommand cmd pc false em ec rso rse inp ech isig (Behavior.runs f) h0).result =
      Except.error (PyExn.runCommandError
        ("Command \"" ++ cmdStr (if ech then chrootRewrite cmd else cmd) ++ "\" failed.\n" ++
          specErrorText em (if rse then some (f (childStdin inp)).2.1 else none)
            (if rso then some (f (childStdin inp)).1 else none))) ∧
    (OldRunCommand oc pc false em false rso rse inp false N behav).2 =
      Except.error (PyExn.runCommandException
        ("Command \"" ++ pyReprList oc ++ "\" failed.\n" ++
          specErrorText em (if rse then some (f (childStdin inp)).2.1 else none)
            (if rso then some (f (childStdin inp)).1 else none))) := by
  constructor
  · have hcond : ((f (childStdin inp)).2.2 != 0) = true := by
      simp [bne, hf]
    simp [RunCommand, hcond, orChain_eq_specErrorText]
  · obtain ⟨l1, _, _⟩ := oldLoop_all_attempts_fail oc pc em false rso rse inp N behav f hf
      hb N 0 (some "") (by omega)
    have hN : N + 1 - 0 = N + 1 := by omega
    rw [hN] at l1
    rw [orChain_eq_specErrorText] at l1
    simp [OldRunCommand, l1]

theorem C9_witness :
    (((1 : Int)) == 0) = false ∧
    ((RunCommand (Cmd.args ["x"]) false false (some "custom") false false false none
        false false (Behavior.runs (fun _ => ("", "", (1 : Int)))) 0).result =
      Except.error (PyExn.runCommandError "Command \"x\" failed.\ncustom") ∧
    (OldRunCommand ["y"] false false (some "custom") false false false none false 0
        (fun _ => Behavior.runs (fun _ => ("", "", (1 : Int))))).2 =
      Except.error
        (PyExn.runCommandException "Command \"[\x27y\x27]\" failed.\ncustom")) :=
  ⟨by decide,
   C9_amended_failure_message_preference (Cmd.args ["x"]) false (some "custom") false
     false false none false false (fun _ => ("", "", (1 : Int))) 0 ["y"] 0
     (fun _ => Behavior.runs (fun _ => ("", "", (1 : Int)))) (by decide) (fun _ => rfl)⟩

/-- C10 as amended: the `input` option is piped to the child's stdin exactly
when it is present and non-empty (Python truthiness of `if input:`); an
empty-string input is treated as absent, so the child inherits the parent's
stdin, as does a `None` input.  With input `"hello\n"` and a child that
echoes its piped stdin to stdout under `capture_stdout = true`, the result's
captured stdout equals `"hello\n"`. -/
theorem C10_amended_input_piping (cmd : Cmd) (pc : Bool) (h0 : Nat) (s : String)
    (hs : s ≠ "") :
    childStdin (some s) = some s ∧ childStdin none = none ∧
    childStdin (some "") = none ∧
    (RunCommand cmd pc false none false true false (some "hello\n") false false
        (Behavior.runs (fun st => (st.getD "", "", 0))) h0).result =
      Except.ok ⟨some cmd, none, some "hello\n", none⟩ := by
  refine ⟨?_, rfl, rfl, ?_⟩
  · simp [childStdin, hs]
  · rfl

theorem C10_witness :
    "a" ≠ "" ∧
    (childStdin (some "a") = some "a" ∧ childStdin none = none ∧
    childStdin (some "") = none ∧
    (RunCommand (Cmd.args ["cat"]) false false none false true false (some "hello\n")
        false false (Behavior.runs (fun st => (st.getD "", "", 0))) 0).result =
      Except.ok ⟨some (Cmd.args ["cat"]), none, some "hello\n", none⟩) :=
  ⟨by decide, C10_amended_input_piping (Cmd.args ["cat"]) false 0 "a" (by decide)⟩

end CrosBuildLib
